import Mathlib

/-
Verification of the ChimeraFX configuration/code-generation layer.

The Python sources embedded here are:
  components/cfx_light/light.py       (segment validation, all_effects injection,
                                       chipset defaults, segment codegen)
  components/chimera_light/light.py   (chipset-default rgb_order)
  components/cfx_effect/cfx_control.py (control-surface entity generation)

Machine integers in the sources are plain Python ints validated upstream
(uint16, uint8); they are modelled as Nat.  Durations are milliseconds (Nat)
at the configuration boundary and seconds (Rat, the exact value ms/1000) on
the engine side.
-/

namespace ChimeraFX

/-- RGB byte orders supported by both light platforms (the `RGB_ORDERS` map). -/
inductive RGBOrder
  | RGB | RBG | GRB | GBR | BGR | BRG
deriving DecidableEq, Repr

/-- Chipsets accepted by `cfx_light` (its `CHIPSETS` map). -/
inductive CfxChipset
  | WS2812X | SK6812 | WS2811
deriving DecidableEq, Repr

/-- Chipsets accepted by `chimera_light` (its `CHIPSETS` map). -/
inductive ChimChipset
  | WS2812B | SK6812 | WS2811 | WS2813
deriving DecidableEq, Repr

/-- One entry of the `segments:` list (`SEGMENT_SCHEMA` in cfx_light):
required `id`, `start`, `stop`; optional `mirror` (default false), optional
intro/outro mode overrides and intro duration (milliseconds). -/
structure Segment where
  id : String
  start : Nat
  stop : Nat
  mirror : Bool := false
  use_intro : Option Nat := none
  use_outro : Option Nat := none
  intro_dur : Option Nat := none
deriving DecidableEq, Repr

/-- The `addressable_cfx` payload of an effect entry.  Keys that the source
reads with `dict.get` are `Option`s; `set_intro_dur`/`set_outro_dur` hold
seconds as exact rationals. -/
structure EffectData where
  name : String := ""
  effect_id : Option Int := none
  set_intro : Option Nat := none
  set_outro : Option Nat := none
  set_intro_dur : Option Rat := none
  set_outro_dur : Option Rat := none
deriving DecidableEq, Repr

/-- One entry of an `effects:` list: either an `addressable_cfx` mapping or
some other effect platform (which `_inject_all_effects` never touches). -/
inductive EffectEntry
  | addressable (data : EffectData)
  | other
deriving DecidableEq, Repr

/-- The cfx_light configuration mapping after schema validation, restricted
to the keys the embedded functions read. -/
structure LightConfig where
  num_leds : Nat
  chipset : CfxChipset
  rgb_order : Option RGBOrder := none
  is_rgbw : Option Bool := none
  is_wrgb : Bool := false
  all_effects : Bool := false
  use_intro : Option Nat := none
  use_outro : Option Nat := none
  intro_dur : Option Nat := none
  effects : List EffectEntry := []
  segments : List Segment := []
deriving DecidableEq, Repr

/-- The validation errors `_validate_segments` can raise (`cv.Invalid`),
one constructor per raise site, carrying the data interpolated into the
message. -/
inductive SegError
  | tooMany (count : Nat)
  | stopNotAfterStart (segId : String) (start stop : Nat)
  | stopExceedsNumLeds (segId : String) (stop numLeds : Nat)
  | duplicateId (segId : String)
  | overlap (prevId : String) (prevStart prevStop : Nat)
      (currId : String) (currStart currStop : Nat)
deriving DecidableEq, Repr

def MAX_CFX_SEGMENTS : Nat := 6

/-- The per-segment loop of `_validate_segments`: bounds checks and the
duplicate-id check in source order, collecting the `(start, stop, id)`
ranges in list order (`seen` is the `seen_ids` set). -/
def checkSegments (numLeds : Nat) (seen : List String) :
    List Segment → Except SegError (List (Nat × Nat × String))
  | [] => .ok []
  | seg :: rest =>
    if seg.stop ≤ seg.start then
      .error (.stopNotAfterStart seg.id seg.start seg.stop)
    else if seg.stop > numLeds then
      .error (.stopExceedsNumLeds seg.id seg.stop numLeds)
    else if seg.id ∈ seen then
      .error (.duplicateId seg.id)
    else
      match checkSegments numLeds (seg.id :: seen) rest with
      | .error e => .error e
      | .ok ranges => .ok ((seg.start, seg.stop, seg.id) :: ranges)

/-- The consecutive-pair overlap scan of `_validate_segments`, run on the
ranges sorted by start. -/
def checkOverlaps : List (Nat × Nat × String) → Except SegError Unit
  | a :: b :: rest =>
    if b.1 < a.2.1 then
      .error (.overlap a.2.2 a.1 a.2.1 b.2.2 b.1 b.2.1)
    else checkOverlaps (b :: rest)
  | _ => .ok ()

/-- The sort key of `ranges.sort(key=lambda r: r[0])`: compare starts. -/
def byStart (a b : Nat × Nat × String) : Prop := a.1 ≤ b.1

instance : DecidableRel byStart := fun a b => Nat.decLe a.1 b.1

instance : IsTotal (Nat × Nat × String) byStart :=
  ⟨fun a b => Nat.le_total a.1 b.1⟩

instance : IsTrans (Nat × Nat × String) byStart :=
  ⟨fun _ _ _ h1 h2 => Nat.le_trans h1 h2⟩

/-- `_validate_segments` (cfx_light/light.py): empty segment list passes;
more than `MAX_CFX_SEGMENTS` segments is rejected; then per-segment checks;
then the overlap scan over the start-sorted ranges; on success the
configuration is returned unchanged. -/
def validateSegments (cfg : LightConfig) : Except SegError LightConfig :=
  if cfg.segments.isEmpty then .ok cfg
  else if cfg.segments.length > MAX_CFX_SEGMENTS then
    .error (.tooMany cfg.segments.length)
  else
    match checkSegments cfg.num_leds [] cfg.segments with
    | .error e => .error e
    | .ok ranges =>
      match checkOverlaps (ranges.insertionSort byStart) with
      | .error e => .error e
      | .ok _ => .ok cfg

/-- The range triple `(start, stop, id)` collected for a segment. -/
def toRange (s : Segment) : Nat × Nat × String := (s.start, s.stop, s.id)

lemma checkSegments_ok_iff (numLeds : Nat) (segs : List Segment) :
    ∀ (seen : List String) (rs : List (Nat × Nat × String)),
    checkSegments numLeds seen segs = .ok rs ↔
      ((∀ s ∈ segs, s.start < s.stop ∧ s.stop ≤ numLeds) ∧
       (∀ s ∈ segs, s.id ∉ seen) ∧
       (segs.map Segment.id).Nodup ∧
       rs = segs.map toRange) := by
  induction segs with
  | nil =>
    intro seen rs
    simp [checkSegments, eq_comm]
  | cons seg rest ih =>
    intro seen rs
    rw [checkSegments]
    by_cases h1 : seg.stop ≤ seg.start
    · rw [if_pos h1]
      constructor
      · intro h; cases h
      · rintro ⟨hb, -, -, -⟩
        exact absurd (hb seg (List.mem_cons_self _ _)).1 (by omega)
    · rw [if_neg h1]
      by_cases h2 : seg.stop > numLeds
      · rw [if_pos h2]
        constructor
        · intro h; cases h
        · rintro ⟨hb, -, -, -⟩
          exact absurd (hb seg (List.mem_cons_self _ _)).2 (by omega)
      · rw [if_neg h2]
        by_cases h3 : seg.id ∈ seen
        · rw [if_pos h3]
          constructor
          · intro h; cases h
          · rintro ⟨-, hseen, -, -⟩
            exact absurd h3 (hseen seg (List.mem_cons_self _ _))
        · rw [if_neg h3]
          constructor
          · intro h
            match hrec : checkSegments numLeds (seg.id :: seen) rest with
            | .error e => rw [hrec] at h; cases h
            | .ok ranges =>
              rw [hrec] at h
              obtain ⟨hb, hseen, hnd, hrs⟩ := (ih (seg.id :: seen) ranges).mp hrec
              cases h
              refine ⟨?_, ?_, ?_, ?_⟩
              · intro s hs
                rcases List.mem_cons.mp hs with rfl | hs
                · exact ⟨by omega, by omega⟩
                · exact hb s hs
              · intro s hs
                rcases List.mem_cons.mp hs with rfl | hs
                · exact h3
                · exact fun hmem => hseen s hs (List.mem_cons_of_mem _ hmem)
              · refine List.Nodup.cons ?_ hnd
                intro hmem
                obtain ⟨s, hs, hid⟩ := List.mem_map.mp hmem
                exact hseen s hs (hid ▸ List.mem_cons_self _ _)
              · simp [hrs, toRange]
          · rintro ⟨hb, hseen, hnd, hrs⟩
            have hrec : checkSegments numLeds (seg.id :: seen) rest =
                .ok (rest.map toRange) := by
              refine (ih (seg.id :: seen) (rest.map toRange)).mpr ⟨?_, ?_, ?_, rfl⟩
              · exact fun s hs => hb s (List.mem_cons_of_mem _ hs)
              · intro s hs hmem
                rcases List.mem_cons.mp hmem with hid | hmem'
                · exact (List.nodup_cons.mp hnd).1 (hid ▸ List.mem_map_of_mem Segment.id hs)
                · exact hseen s (List.mem_cons_of_mem _ hs) hmem'
              · exact (List.nodup_cons.mp hnd).2
            rw [hrec, hrs]
            simp [toRange]

lemma checkOverlaps_ok_iff (l : List (Nat × Nat × String)) :
    checkOverlaps l = .ok () ↔ l.Chain' (fun a b => a.2.1 ≤ b.1) := by
  induction l with
  | nil => simp [checkOverlaps]
  | cons a tail ih =>
    cases tail with
    | nil => simp [checkOverlaps]
    | cons b rest =>
      rw [checkOverlaps]
      by_cases h : b.1 < a.2.1
      · rw [if_pos h]
        constructor
        · intro hc; cases hc
        · intro hc
          exact absurd (List.chain'_cons.mp hc).1 (by omega)
      · rw [if_neg h, ih, List.chain'_cons]
        exact ⟨fun hc => ⟨by omega, hc⟩, fun hc => hc.2⟩

lemma chain_disjoint_pairwise (l : List (Nat × Nat × String))
    (hv : ∀ r ∈ l, r.1 < r.2.1)
    (hc : l.Chain' (fun a b => a.2.1 ≤ b.1)) :
    l.Pairwise (fun a b => a.2.1 ≤ b.1) := by
  induction l with
  | nil => exact List.Pairwise.nil
  | cons a tail ih =>
    cases tail with
    | nil => simp
    | cons b rest =>
      obtain ⟨hab, hrest⟩ := List.chain'_cons.mp hc
      have hvtail : ∀ r ∈ b :: rest, r.1 < r.2.1 :=
        fun r hr => hv r (List.mem_cons_of_mem _ hr)
      have hp := ih hvtail hrest
      refine List.Pairwise.cons ?_ hp
      intro c hcmem
      rcases List.mem_cons.mp hcmem with rfl | hcmem'
      · exact hab
      · have hbc := List.rel_of_pairwise_cons hp hcmem'
        have hbv := hv b (List.mem_cons_of_mem _ (List.mem_cons_self _ _))
        omega

lemma pairwise_disjoint_chain (l : List (Nat × Nat × String))
    (hv : ∀ r ∈ l, r.1 < r.2.1)
    (hs : l.Pairwise byStart)
    (hd : l.Pairwise (fun a b => a.2.1 ≤ b.1 ∨ b.2.1 ≤ a.1)) :
    l.Chain' (fun a b => a.2.1 ≤ b.1) := by
  refine List.Pairwise.chain' ?_
  refine ((hs.and hd).imp_of_mem ?_)
  intro a b ha hb hr
  obtain ⟨hst, hor⟩ := hr
  have hbv := hv b hb
  rcases hor with hle | hle
  · exact hle
  · exact absurd hle (by unfold byStart at hst; omega)

/-- The disjointness relation on half-open ranges is symmetric. -/
lemma disjointR_symm :
    ∀ {a b : Nat × Nat × String},
      (a.2.1 ≤ b.1 ∨ b.2.1 ≤ a.1) → (b.2.1 ≤ a.1 ∨ a.2.1 ≤ b.1) :=
  fun h => h.symm

lemma checkOverlaps_sorted_iff (l : List (Nat × Nat × String))
    (hv : ∀ r ∈ l, r.1 < r.2.1) :
    checkOverlaps (l.insertionSort byStart) = .ok () ↔
      l.Pairwise (fun a b => a.2.1 ≤ b.1 ∨ b.2.1 ≤ a.1) := by
  have hperm := List.perm_insertionSort byStart l
  have hsorted := List.sorted_insertionSort byStart l
  have hv' : ∀ r ∈ l.insertionSort byStart, r.1 < r.2.1 :=
    fun r hr => hv r (hperm.mem_iff.mp hr)
  rw [checkOverlaps_ok_iff]
  constructor
  · intro hc
    have hp := chain_disjoint_pairwise _ hv' hc
    exact (hperm.pairwise_iff disjointR_symm).mp (hp.imp fun h => Or.inl h)
  · intro hd
    exact pairwise_disjoint_chain _ hv' hsorted
      ((hperm.pairwise_iff disjointR_symm).mpr hd)

/-- The full success condition of `_validate_segments` for a non-empty list
of at most `MAX_CFX_SEGMENTS` segments. -/
def segmentsValid (cfg : LightConfig) : Prop :=
  (∀ s ∈ cfg.segments, s.start < s.stop ∧ s.stop ≤ cfg.num_leds) ∧
  (cfg.segments.map Segment.id).Nodup ∧
  cfg.segments.Pairwise (fun a b => a.stop ≤ b.start ∨ b.stop ≤ a.start)

instance (cfg : LightConfig) : Decidable (segmentsValid cfg) := by
  unfold segmentsValid; infer_instance

lemma validateSegments_ok_iff (cfg : LightConfig) (hne : cfg.segments ≠ [])
    (hlen : cfg.segments.length ≤ MAX_CFX_SEGMENTS) :
    validateSegments cfg = .ok cfg ↔ segmentsValid cfg := by
  unfold validateSegments
  rw [if_neg (by simpa [List.isEmpty_iff] using hne), if_neg (by omega)]
  constructor
  · intro h
    split at h
    · cases h
    · next ranges hrec =>
      obtain ⟨hb, -, hnd, hrs⟩ :=
        (checkSegments_ok_iff cfg.num_leds cfg.segments [] ranges).mp hrec
      have hv : ∀ r ∈ ranges, r.1 < r.2.1 := by
        subst hrs
        intro r hr
        obtain ⟨s, hs, rfl⟩ := List.mem_map.mp hr
        exact (hb s hs).1
      split at h
      · cases h
      · next u hov =>
        have hd := (checkOverlaps_sorted_iff ranges hv).mp (by rw [hov])
        subst hrs
        refine ⟨hb, hnd, ?_⟩
        rw [List.pairwise_map] at hd
        exact hd.imp fun hab => hab
  · rintro ⟨hb, hnd, hdisj⟩
    have hrec : checkSegments cfg.num_leds [] cfg.segments =
        .ok (cfg.segments.map toRange) :=
      (checkSegments_ok_iff cfg.num_leds cfg.segments [] _).mpr
        ⟨fun s hs => hb s hs, fun s _ h => (List.not_mem_nil _ h), hnd, rfl⟩
    have hv : ∀ r ∈ cfg.segments.map toRange, r.1 < r.2.1 := by
      intro r hr
      obtain ⟨s, hs, rfl⟩ := List.mem_map.mp hr
      exact (hb s hs).1
    have hov : checkOverlaps ((cfg.segments.map toRange).insertionSort byStart) =
        .ok () := by
      rw [checkOverlaps_sorted_iff _ hv, List.pairwise_map]
      exact hdisj.imp fun hab => hab
    simp only [hrec, hov]

lemma validateSegments_ok_eq {cfg cfg' : LightConfig}
    (h : validateSegments cfg = .ok cfg') : cfg' = cfg := by
  unfold validateSegments at h
  by_cases h0 : cfg.segments.isEmpty
  · rw [if_pos h0] at h; cases h; rfl
  · rw [if_neg h0] at h
    by_cases h1 : cfg.segments.length > MAX_CFX_SEGMENTS
    · rw [if_pos h1] at h; cases h
    · rw [if_neg h1] at h
      split at h
      · cases h
      · split at h
        · cases h
        · cases h; rfl

lemma checkSegments_no_tooMany (numLeds : Nat) (segs : List Segment) :
    ∀ (seen : List String) (n : Nat),
      checkSegments numLeds seen segs ≠ .error (.tooMany n) := by
  induction segs with
  | nil => intro seen n h; cases h
  | cons seg rest ih =>
    intro seen n h
    rw [checkSegments] at h
    by_cases h1 : seg.stop ≤ seg.start
    · rw [if_pos h1] at h; simp at h
    · rw [if_neg h1] at h
      by_cases h2 : seg.stop > numLeds
      · rw [if_pos h2] at h; simp at h
      · rw [if_neg h2] at h
        by_cases h3 : seg.id ∈ seen
        · rw [if_pos h3] at h; simp at h
        · rw [if_neg h3] at h
          split at h
          · next e hrec => cases h; exact ih _ n hrec
          · cases h

lemma checkOverlaps_no_tooMany (l : List (Nat × Nat × String)) (n : Nat) :
    checkOverlaps l ≠ .error (.tooMany n) := by
  induction l with
  | nil => intro h; cases h
  | cons a tail ih =>
    cases tail with
    | nil => intro h; cases h
    | cons b rest =>
      intro h
      rw [checkOverlaps] at h
      by_cases hlt : b.1 < a.2.1
      · rw [if_pos hlt] at h; simp at h
      · rw [if_neg hlt] at h; exact ih h

/-- The scenario configuration from the spec: a 20-LED strip with segments
`[0,10)` and `[10,10)` (stop equal to start). -/
def geomRejectCfg : LightConfig :=
  { num_leds := 20, chipset := .WS2812X,
    segments := [{ id := "a", start := 0, stop := 10 },
                 { id := "b", start := 10, stop := 10 }] }

/-- C1: for every light configuration with a non-empty segments list of at
most 6 segments, `_validate_segments` returns the configuration unchanged
iff every segment satisfies `start < stop` and `stop ≤ num_leds`, the
segment ids are pairwise distinct, and the half-open ranges `[start, stop)`
are pairwise disjoint; in every other case it raises a validation error;
in particular the spec scenario with segments `[0,10)` and `[10,10)` is
rejected with the stop-must-exceed-start geometry error. -/
theorem claim_C1 (cfg : LightConfig) (hne : cfg.segments ≠ [])
    (hlen : cfg.segments.length ≤ MAX_CFX_SEGMENTS) :
    (validateSegments cfg = .ok cfg ↔
      ((∀ s ∈ cfg.segments, s.start < s.stop ∧ s.stop ≤ cfg.num_leds) ∧
       (cfg.segments.map Segment.id).Nodup ∧
       cfg.segments.Pairwise (fun a b => a.stop ≤ b.start ∨ b.stop ≤ a.start))) ∧
    (¬ segmentsValid cfg → ∃ e, validateSegments cfg = .error e) ∧
    validateSegments geomRejectCfg = .error (.stopNotAfterStart "b" 10 10) := by
  refine ⟨validateSegments_ok_iff cfg hne hlen, ?_, rfl⟩
  intro hnv
  match hres : validateSegments cfg with
  | .error e => exact ⟨e, rfl⟩
  | .ok cfg' =>
    cases validateSegments_ok_eq hres
    exact absurd ((validateSegments_ok_iff cfg hne hlen).mp hres) hnv

/-- A valid two-segment configuration used to instantiate `claim_C1`. -/
def c1WitnessCfg : LightConfig :=
  { num_leds := 30, chipset := .WS2812X,
    segments := [{ id := "a", start := 0, stop := 10 },
                 { id := "b", start := 10, stop := 30 }] }

theorem claim_C1_witness :
    c1WitnessCfg.segments ≠ [] ∧
    c1WitnessCfg.segments.length ≤ MAX_CFX_SEGMENTS ∧
    validateSegments c1WitnessCfg = .ok c1WitnessCfg :=
  ⟨by decide, by decide,
    (claim_C1 c1WitnessCfg (by decide) (by decide)).1.mpr (by decide)⟩

/-- C4: a configuration with more than 6 segments is rejected by
`_validate_segments` with the segment-count error, and a configuration with
at most 6 segments is never rejected with the segment-count error. -/
theorem claim_C4 (cfg : LightConfig) :
    (cfg.segments.length > MAX_CFX_SEGMENTS →
      validateSegments cfg = .error (.tooMany cfg.segments.length)) ∧
    (cfg.segments.length ≤ MAX_CFX_SEGMENTS →
      ∀ n, validateSegments cfg ≠ .error (.tooMany n)) := by
  constructor
  · intro hgt
    unfold validateSegments
    rw [if_neg, if_pos hgt]
    intro hemp
    rw [List.isEmpty_iff] at hemp
    rw [hemp] at hgt
    simp [MAX_CFX_SEGMENTS] at hgt
  · intro hle n h
    unfold validateSegments at h
    by_cases h0 : cfg.segments.isEmpty
    · rw [if_pos h0] at h; cases h
    · rw [if_neg h0] at h
      rw [if_neg (by omega)] at h
      split at h
      · next e hrec => cases h; exact checkSegments_no_tooMany _ _ _ _ hrec
      · split at h
        · next e hov => cases h; exact checkOverlaps_no_tooMany _ _ hov
        · cases h

/-- A seven-segment configuration used to instantiate `claim_C4`. -/
def c4SevenCfg : LightConfig :=
  { num_leds := 30, chipset := .WS2812X,
    segments := [{ id := "s0", start := 0, stop := 1 },
                 { id := "s1", start := 1, stop := 2 },
                 { id := "s2", start := 2, stop := 3 },
                 { id := "s3", start := 3, stop := 4 },
                 { id := "s4", start := 4, stop := 5 },
                 { id := "s5", start := 5, stop := 6 },
                 { id := "s6", start := 6, stop := 7 }] }

/-- A two-segment configuration used to instantiate `claim_C4`. -/
def c4SmallCfg : LightConfig :=
  { num_leds := 30, chipset := .WS2812X,
    segments := [{ id := "a", start := 0, stop := 10 },
                 { id := "b", start := 10, stop := 30 }] }

theorem claim_C4_witness :
    validateSegments c4SevenCfg = .error (.tooMany 7) ∧
    validateSegments c4SmallCfg ≠ .error (.tooMany 2) :=
  ⟨(claim_C4 c4SevenCfg).1 (by decide),
   (claim_C4 c4SmallCfg).2 (by decide) 2⟩

/-! The `all_effects` injection (`_inject_all_effects` in cfx_light/light.py). -/

/-- The hardcoded effect-id exemptions of `_inject_all_effects`. -/
def EXEMPT_EFFECT_IDS : List Int := [158, 159, 161]

/-- The first loop of `_inject_all_effects`: it iterates the user effects
and, for `addressable_cfx` entries, binds the local `name`, but never adds
anything to the `user_names` set, so the collected set is always empty. -/
def collectUserNames : List EffectEntry → List String
  | [] => []
  | _ :: rest => collectUserNames rest

/-- The YAML injection loop: entries that are `addressable_cfx` and whose
name is non-empty and not among the collected user names are appended. -/
def injectedEntries (userNames : List String) (yamlEffects : List EffectEntry) :
    List EffectEntry :=
  yamlEffects.filter fun e =>
    match e with
    | .addressable d => d.name != "" && !(userNames.contains d.name)
    | .other => false

/-- The body of the final loop of `_inject_all_effects` on the
`addressable_cfx` payload of a non-exempt entry: the global intro, outro and
duration values are written into keys the entry does not already carry. -/
def applyGlobalData (use_intro use_outro : Option Nat) (intro_dur_sec : Option Rat)
    (d : EffectData) : EffectData :=
  let d1 := match use_intro, d.set_intro with
    | some v, none => { d with set_intro := some v }
    | _, _ => d
  let d2 := match use_outro, d1.set_outro with
    | some v, none => { d1 with set_outro := some v }
    | _, _ => d1
  let d3 := match intro_dur_sec, d2.set_intro_dur with
    | some q, none => { d2 with set_intro_dur := some q }
    | _, _ => d2
  match intro_dur_sec, d3.set_outro_dur with
  | some q, none => { d3 with set_outro_dur := some q }
  | _, _ => d3

/-- The final loop of `_inject_all_effects` on one effect entry: entries
that are not `addressable_cfx` are untouched, entries whose
`effect_id` (default `-1`) is one of the hardcoded exemptions are skipped,
all others receive the global intro/outro values. -/
def applyGlobalIntroOutro (use_intro use_outro : Option Nat)
    (intro_dur_sec : Option Rat) : EffectEntry → EffectEntry
  | .other => .other
  | .addressable d =>
    if d.effect_id.getD (-1) ∈ EXEMPT_EFFECT_IDS then .addressable d
    else .addressable (applyGlobalData use_intro use_outro intro_dur_sec d)

/-- The seconds value `float(parsed_ms) / 1000.0` computed from a configured
`intro_dur`, as an exact rational. -/
def introDurSecOf (cfg : LightConfig) : Option Rat :=
  cfg.intro_dur.map fun ms => (ms : Rat) / 1000

/-- `_inject_all_effects` (cfx_light/light.py): if `all_effects` is not set
the configuration is returned unchanged; otherwise the filtered YAML entries
are appended to the user effects and the global intro/outro values are
applied to every entry of the combined list. -/
def inject_all_effects (yamlEffects : List EffectEntry) (cfg : LightConfig) :
    LightConfig :=
  if cfg.all_effects = false then cfg
  else
    let userNames := collectUserNames cfg.effects
    let combined := cfg.effects ++ injectedEntries userNames yamlEffects
    let apply := applyGlobalIntroOutro cfg.use_intro cfg.use_outro (introDurSecOf cfg)
    { cfg with effects := combined.map apply }

/-- C2: with `all_effects` true, `_inject_all_effects` maps the combined
effect list through the global intro/outro application; entries whose
`effect_id` is 158, 159 or 161 are returned unchanged (no `set_intro`,
`set_outro`, `set_intro_dur` or `set_outro_dur` written), while every other
`addressable_cfx` entry receives each configured global value exactly when
it does not already carry the corresponding key (keys already present are
preserved). -/
theorem claim_C2 (yamlEffects : List EffectEntry) (cfg : LightConfig)
    (hall : cfg.all_effects = true) :
    ((inject_all_effects yamlEffects cfg).effects =
      (cfg.effects ++ injectedEntries (collectUserNames cfg.effects) yamlEffects).map
        (applyGlobalIntroOutro cfg.use_intro cfg.use_outro (introDurSecOf cfg))) ∧
    (∀ d : EffectData, d.effect_id.getD (-1) ∈ EXEMPT_EFFECT_IDS →
      applyGlobalIntroOutro cfg.use_intro cfg.use_outro (introDurSecOf cfg)
        (.addressable d) = .addressable d) ∧
    (∀ d : EffectData, d.effect_id.getD (-1) ∉ EXEMPT_EFFECT_IDS →
      applyGlobalIntroOutro cfg.use_intro cfg.use_outro (introDurSecOf cfg)
          (.addressable d) =
        .addressable (applyGlobalData cfg.use_intro cfg.use_outro (introDurSecOf cfg) d)) ∧
    (∀ (u o : Option Nat) (q : Option Rat) (d : EffectData),
      ((d.set_intro = none → (applyGlobalData u o q d).set_intro = u.or d.set_intro) ∧
       (∀ w, d.set_intro = some w → (applyGlobalData u o q d).set_intro = some w) ∧
       (d.set_outro = none → (applyGlobalData u o q d).set_outro = o.or d.set_outro) ∧
       (∀ w, d.set_outro = some w → (applyGlobalData u o q d).set_outro = some w) ∧
       (d.set_intro_dur = none →
         (applyGlobalData u o q d).set_intro_dur = q.or d.set_intro_dur) ∧
       (∀ w, d.set_intro_dur = some w →
         (applyGlobalData u o q d).set_intro_dur = some w) ∧
       (d.set_outro_dur = none →
         (applyGlobalData u o q d).set_outro_dur = q.or d.set_outro_dur) ∧
       (∀ w, d.set_outro_dur = some w →
         (applyGlobalData u o q d).set_outro_dur = some w))) := by
  refine ⟨by simp [inject_all_effects, hall], fun d hd => by simp [applyGlobalIntroOutro, hd],
    fun d hd => by simp [applyGlobalIntroOutro, hd], ?_⟩
  intro u o q d
  unfold applyGlobalData
  rcases u with - | v <;> rcases o with - | w' <;> rcases q with - | qv <;>
    rcases hi : d.set_intro with - | iv <;> rcases ho : d.set_outro with - | ov <;>
    rcases hid : d.set_intro_dur with - | idv <;>
    rcases hod : d.set_outro_dur with - | odv <;>
      simp_all

/-- A configuration with `all_effects` and all three global keys set, used
to instantiate `claim_C2`. -/
def c2Cfg : LightConfig :=
  { num_leds := 10, chipset := .WS2812X, all_effects := true,
    use_intro := some 2, use_outro := some 3, intro_dur := some 1000,
    effects := [.addressable { name := "User", effect_id := some 1 }] }

/-- A YAML effect list with one ordinary and one exempt entry, used to
instantiate `claim_C2`. -/
def c2Yaml : List EffectEntry :=
  [.addressable { name := "Aurora", effect_id := some 38 },
   .addressable { name := "Sys", effect_id := some 158 }]

theorem claim_C2_witness :
    (inject_all_effects c2Yaml c2Cfg).effects =
      (c2Cfg.effects ++ injectedEntries (collectUserNames c2Cfg.effects) c2Yaml).map
        (applyGlobalIntroOutro c2Cfg.use_intro c2Cfg.use_outro (introDurSecOf c2Cfg)) ∧
    applyGlobalIntroOutro c2Cfg.use_intro c2Cfg.use_outro (introDurSecOf c2Cfg)
        (.addressable { name := "Sys", effect_id := some 158 }) =
      .addressable { name := "Sys", effect_id := some 158 } :=
  ⟨(claim_C2 c2Yaml c2Cfg rfl).1,
   (claim_C2 c2Yaml c2Cfg rfl).2.1 { name := "Sys", effect_id := some 158 } (by decide)⟩

lemma collectUserNames_eq_nil (l : List EffectEntry) : collectUserNames l = [] := by
  induction l with
  | nil => rfl
  | cons e rest ih => rw [collectUserNames]; exact ih

/-- The injection filter with the (always empty) user-name set dropped:
`addressable_cfx` entries with a non-empty name. -/
def nonEmptyNameFilter : EffectEntry → Bool
  | .addressable d => d.name != ""
  | .other => false

/-- C6: the `user_names` set of `_inject_all_effects` is never populated, so
with `all_effects` true the injected entries are exactly the
`addressable_cfx` YAML entries with a non-empty name, appended after the
user effects even when a user-defined effect with the same name exists. -/
theorem claim_C6 (effects : List EffectEntry) (yamlEffects : List EffectEntry)
    (cfg : LightConfig) (hall : cfg.all_effects = true) :
    collectUserNames effects = [] ∧
    injectedEntries (collectUserNames effects) yamlEffects =
      yamlEffects.filter nonEmptyNameFilter ∧
    (inject_all_effects yamlEffects cfg).effects =
      (cfg.effects ++ yamlEffects.filter nonEmptyNameFilter).map
        (applyGlobalIntroOutro cfg.use_intro cfg.use_outro (introDurSecOf cfg)) := by
  have hfilter : ∀ (ys : List EffectEntry),
      injectedEntries [] ys = ys.filter nonEmptyNameFilter := by
    intro ys
    unfold injectedEntries
    refine List.filter_congr ?_
    intro e _
    cases e with
    | addressable d => simp [nonEmptyNameFilter]
    | other => rfl
  refine ⟨collectUserNames_eq_nil effects, ?_, ?_⟩
  · rw [collectUserNames_eq_nil]; exact hfilter yamlEffects
  · simp only [inject_all_effects, hall]
    rw [collectUserNames_eq_nil, hfilter yamlEffects]
    simp

/-- A configuration whose single user effect shares its name with the single
YAML entry, used to instantiate `claim_C6`. -/
def c6Cfg : LightConfig :=
  { num_leds := 10, chipset := .WS2812X, all_effects := true,
    effects := [.addressable { name := "Aurora", effect_id := some 1 }] }

/-- A YAML effect list with the same name as the user effect of `c6Cfg`. -/
def c6Yaml : List EffectEntry :=
  [.addressable { name := "Aurora", effect_id := some 38 }]

theorem claim_C6_witness :
    collectUserNames c6Cfg.effects = [] ∧
    (inject_all_effects c6Yaml c6Cfg).effects =
      [.addressable { name := "Aurora", effect_id := some 1 },
       .addressable { name := "Aurora", effect_id := some 38 }] :=
  ⟨(claim_C6 c6Cfg.effects c6Yaml c6Cfg rfl).1, by
    have h := (claim_C6 c6Cfg.effects c6Yaml c6Cfg rfl).2.2
    rw [h]; rfl⟩

/-! Segment codegen of `cfx_light.to_code` and the engine-side segment
records it configures (claims about per-segment override/inheritance). -/

/-- A segment record held by the engine after `add_segment_def`. -/
structure SegmentDef where
  id : String
  start : Nat
  stop : Nat
  mirror : Bool
  intro_mode : Nat
  outro_mode : Nat
  intro_dur : Rat
  outro_dur : Rat
deriving DecidableEq, Repr

/-- The engine state touched by the segment codegen: the four strip-level
defaults and the list of added segment records. -/
structure EngineState where
  default_intro_mode : Nat := 0
  default_outro_mode : Nat := 0
  default_intro_dur : Rat := 0
  default_outro_dur : Rat := 0
  segment_defs : List SegmentDef := []
deriving DecidableEq, Repr

def set_default_intro_mode (st : EngineState) (v : Nat) : EngineState :=
  { st with default_intro_mode := v }

def set_default_outro_mode (st : EngineState) (v : Nat) : EngineState :=
  { st with default_outro_mode := v }

def set_default_intro_dur (st : EngineState) (v : Rat) : EngineState :=
  { st with default_intro_dur := v }

def set_default_outro_dur (st : EngineState) (v : Rat) : EngineState :=
  { st with default_outro_dur := v }

/-- Modelled from the spec: `CFXLightOutput::add_segment_def` is engine C++
that is not part of this repository.  Per the spec, per-segment overrides
take precedence over the strip-level defaults, and unset per-segment values
(which `to_code` passes as the sentinel `0` / `0.0`) inherit the strip-level
default at segment-add time, not dynamically: the record is fully resolved
against the defaults current when the segment is added. -/
def add_segment_def (st : EngineState) (id : String) (start stop : Nat)
    (mirror : Bool) (intro outro : Nat) (intro_dur outro_dur : Rat) :
    EngineState :=
  { st with segment_defs := st.segment_defs ++
      [{ id := id, start := start, stop := stop, mirror := mirror,
         intro_mode := if intro = 0 then st.default_intro_mode else intro,
         outro_mode := if outro = 0 then st.default_outro_mode else outro,
         intro_dur := if intro_dur = 0 then st.default_intro_dur else intro_dur,
         outro_dur := if outro_dur = 0 then st.default_outro_dur else outro_dur }] }

/-- The intro-mode argument `to_code` passes for a segment:
`seg.get(CONF_SEGMENT_USE_INTRO, 0)`. -/
def segIntroArg (seg : Segment) : Nat := seg.use_intro.getD 0

/-- The outro-mode argument `to_code` passes for a segment:
`seg.get(CONF_SEGMENT_USE_OUTRO, 0)`. -/
def segOutroArg (seg : Segment) : Nat := seg.use_outro.getD 0

/-- The duration argument `to_code` passes (twice, for intro and outro):
`float(seg[CONF_SEGMENT_INTRO_DUR]) / 1000.0` when present, else `0.0`. -/
def segDurArg (seg : Segment) : Rat :=
  match seg.intro_dur with
  | some ms => (ms : Rat) / 1000
  | none => 0

/-- The strip-level default setters emitted at the top of the segment
codegen of `to_code` (lines 301-310): `use_intro`, `use_outro` and
`intro_dur` (the latter setting both default durations). -/
def stripDefaults (cfg : LightConfig) : EngineState :=
  let st : EngineState := {}
  let st := match cfg.use_intro with
    | some v => set_default_intro_mode st v
    | none => st
  let st := match cfg.use_outro with
    | some v => set_default_outro_mode st v
    | none => st
  match cfg.intro_dur with
  | some ms => set_default_outro_dur (set_default_intro_dur st ((ms : Rat) / 1000))
      ((ms : Rat) / 1000)
  | none => st

/-- The segment codegen tail of `cfx_light.to_code` (lines 301-329): the
strip-level default setters, then one `add_segment_def` call per configured
segment, in order, with the arguments the source computes. -/
def to_code_segments (cfg : LightConfig) : EngineState :=
  cfg.segments.foldl
    (fun st seg => add_segment_def st seg.id seg.start seg.stop seg.mirror
      (segIntroArg seg) (segOutroArg seg) (segDurArg seg) (segDurArg seg))
    (stripDefaults cfg)

/-- The segment record produced for `seg` when the strip defaults are those
of `st`: explicit non-sentinel values win, sentinel values inherit. -/
def resolveSegDef (st : EngineState) (seg : Segment) : SegmentDef :=
  { id := seg.id, start := seg.start, stop := seg.stop, mirror := seg.mirror,
    intro_mode := if segIntroArg seg = 0 then st.default_intro_mode else segIntroArg seg,
    outro_mode := if segOutroArg seg = 0 then st.default_outro_mode else segOutroArg seg,
    intro_dur := if segDurArg seg = 0 then st.default_intro_dur else segDurArg seg,
    outro_dur := if segDurArg seg = 0 then st.default_outro_dur else segDurArg seg }

lemma to_code_segments_foldl (segs : List Segment) :
    ∀ (st : EngineState),
    (segs.foldl
      (fun st seg => add_segment_def st seg.id seg.start seg.stop seg.mirror
        (segIntroArg seg) (segOutroArg seg) (segDurArg seg) (segDurArg seg))
      st).segment_defs = st.segment_defs ++ segs.map (resolveSegDef st) := by
  induction segs with
  | nil => intro st; simp
  | cons seg rest ih =>
    intro st
    rw [List.foldl_cons, ih]
    simp [add_segment_def, resolveSegDef]

/-- C3: the arguments `to_code` passes to `add_segment_def` are the
explicitly set per-segment values (never the strip defaults); the engine
records produced are each segment resolved against the strip-level defaults
in force at segment-add time (explicit non-sentinel values taking
precedence, unset values inheriting the default); and a later change of a
strip default leaves already-added segment records unchanged. -/
theorem claim_C3 (cfg : LightConfig) :
    (∀ seg : Segment,
      (∀ v, seg.use_intro = some v → segIntroArg seg = v) ∧
      (∀ v, seg.use_outro = some v → segOutroArg seg = v) ∧
      (∀ ms, seg.intro_dur = some ms → segDurArg seg = (ms : Rat) / 1000) ∧
      (seg.use_intro = none → segIntroArg seg = 0) ∧
      (seg.use_outro = none → segOutroArg seg = 0) ∧
      (seg.intro_dur = none → segDurArg seg = 0)) ∧
    (to_code_segments cfg).segment_defs =
      cfg.segments.map (resolveSegDef (stripDefaults cfg)) ∧
    (∀ (seg : Segment),
      seg.use_intro = none → seg.use_outro = none → seg.intro_dur = none →
      resolveSegDef (stripDefaults cfg) seg =
        { id := seg.id, start := seg.start, stop := seg.stop,
          mirror := seg.mirror,
          intro_mode := (stripDefaults cfg).default_intro_mode,
          outro_mode := (stripDefaults cfg).default_outro_mode,
          intro_dur := (stripDefaults cfg).default_intro_dur,
          outro_dur := (stripDefaults cfg).default_outro_dur }) ∧
    (∀ (st : EngineState) (v : Nat) (q : Rat),
      (set_default_intro_mode st v).segment_defs = st.segment_defs ∧
      (set_default_outro_mode st v).segment_defs = st.segment_defs ∧
      (set_default_intro_dur st q).segment_defs = st.segment_defs ∧
      (set_default_outro_dur st q).segment_defs = st.segment_defs) := by
  refine ⟨?_, ?_, ?_, ?_⟩
  · intro seg
    refine ⟨?_, ?_, ?_, ?_, ?_, ?_⟩ <;>
      first
        | (intro v h; simp [segIntroArg, segOutroArg, segDurArg, h])
        | (intro h; simp [segIntroArg, segOutroArg, segDurArg, h])
  · rw [to_code_segments, to_code_segments_foldl]
    have hnil : (stripDefaults cfg).segment_defs = [] := by
      cases hu : cfg.use_intro <;> cases ho : cfg.use_outro <;>
        cases hd : cfg.intro_dur <;>
          simp [stripDefaults, hu, ho, hd, set_default_intro_mode,
            set_default_outro_mode, set_default_intro_dur,
            set_default_outro_dur]
    rw [hnil, List.nil_append]
  · intro seg h1 h2 h3
    simp [resolveSegDef, segIntroArg, segOutroArg, segDurArg, h1, h2, h3]
  · intro st v q
    exact ⟨rfl, rfl, rfl, rfl⟩

/-- A configuration with strip-level defaults and two segments, one with
explicit overrides and one inheriting, used to instantiate `claim_C3`. -/
def c3Cfg : LightConfig :=
  { num_leds := 30, chipset := .WS2812X,
    use_intro := some 2, use_outro := some 3, intro_dur := some 2000,
    segments := [{ id := "a", start := 0, stop := 10, use_intro := some 4,
                   use_outro := some 5, intro_dur := some 1000 },
                 { id := "b", start := 10, stop := 30 }] }

theorem claim_C3_witness :
    segIntroArg { id := "a", start := 0, stop := 10, use_intro := some 4,
                  use_outro := some 5, intro_dur := some 1000 } = 4 ∧
    (to_code_segments c3Cfg).segment_defs =
      c3Cfg.segments.map (resolveSegDef (stripDefaults c3Cfg)) ∧
    resolveSegDef (stripDefaults c3Cfg) { id := "b", start := 10, stop := 30 } =
      { id := "b", start := 10, stop := 30, mirror := false,
        intro_mode := (stripDefaults c3Cfg).default_intro_mode,
        outro_mode := (stripDefaults c3Cfg).default_outro_mode,
        intro_dur := (stripDefaults c3Cfg).default_intro_dur,
        outro_dur := (stripDefaults c3Cfg).default_outro_dur } :=
  ⟨(claim_C3 c3Cfg).1 _ |>.1 4 rfl,
   (claim_C3 c3Cfg).2.1,
   (claim_C3 c3Cfg).2.2.1 { id := "b", start := 10, stop := 30 } rfl rfl rfl⟩

/-! Chipset-derived defaults in cfx_light and chimera_light. -/

/-- `DEFAULT_ORDER` of cfx_light/light.py. -/
def cfxDefaultOrder : CfxChipset → RGBOrder
  | .WS2812X => .GRB
  | .SK6812 => .GRB
  | .WS2811 => .RGB

/-- `RGBW_CHIPSETS = {"SK6812"}` membership in cfx_light. -/
def isRgbwChipset (c : CfxChipset) : Bool := c = CfxChipset.SK6812

/-- The rgb_order cfx_light `to_code` passes to `set_rgb_order`: the
explicit configuration value when present, else the chipset default (the
`dict.get` fallback `ORDER_GRB` is unreachable because the schema restricts
the chipset to the keys of `DEFAULT_ORDER`). -/
def cfxRgbOrder (cfg : LightConfig) : RGBOrder :=
  match cfg.rgb_order with
  | some o => o
  | none => cfxDefaultOrder cfg.chipset

/-- The is_rgbw flag cfx_light `to_code` passes to `set_is_rgbw`: the
explicit override when present, else auto-detection from the chipset. -/
def cfxIsRgbw (cfg : LightConfig) : Bool :=
  match cfg.is_rgbw with
  | some b => b
  | none => isRgbwChipset cfg.chipset

/-- The chimera_light configuration mapping, restricted to the keys its
`_default_rgb_order` and `to_code` read. -/
structure ChimeraConfig where
  chipset : ChimChipset
  rgb_order : Option RGBOrder := none
deriving DecidableEq, Repr

/-- `DEFAULT_ORDER` of chimera_light/light.py. -/
def chimDefaultOrder : ChimChipset → RGBOrder
  | .WS2812B => .GRB
  | .SK6812 => .GRB
  | .WS2811 => .RGB
  | .WS2813 => .GRB

/-- `_default_rgb_order` (chimera_light/light.py): fill in the chipset
default when `rgb_order` is not explicitly specified (the `dict.get`
fallback `"GRB"` is unreachable because the schema restricts the chipset to
the keys of `DEFAULT_ORDER`). -/
def default_rgb_order (cfg : ChimeraConfig) : ChimeraConfig :=
  match cfg.rgb_order with
  | some _ => cfg
  | none => { cfg with rgb_order := some (chimDefaultOrder cfg.chipset) }

/-- C9: with `rgb_order` omitted both platforms default the byte order per
chipset — RGB for WS2811 and GRB for WS2812X, WS2812B, SK6812 and WS2813 —
an explicitly configured `rgb_order` always wins, and in cfx_light an
omitted `is_rgbw` defaults to true exactly for chipset SK6812 while an
explicit `is_rgbw` always wins. -/
theorem claim_C9 :
    (∀ cfg : LightConfig, cfg.rgb_order = none →
      cfxRgbOrder cfg = cfxDefaultOrder cfg.chipset) ∧
    (cfxDefaultOrder .WS2811 = .RGB ∧ cfxDefaultOrder .WS2812X = .GRB ∧
      cfxDefaultOrder .SK6812 = .GRB) ∧
    (∀ (cfg : LightConfig) (o : RGBOrder), cfg.rgb_order = some o →
      cfxRgbOrder cfg = o) ∧
    (∀ cfg : ChimeraConfig, cfg.rgb_order = none →
      (default_rgb_order cfg).rgb_order = some (chimDefaultOrder cfg.chipset)) ∧
    (chimDefaultOrder .WS2811 = .RGB ∧ chimDefaultOrder .WS2812B = .GRB ∧
      chimDefaultOrder .SK6812 = .GRB ∧ chimDefaultOrder .WS2813 = .GRB) ∧
    (∀ (cfg : ChimeraConfig) (o : RGBOrder), cfg.rgb_order = some o →
      (default_rgb_order cfg).rgb_order = some o) ∧
    (∀ cfg : LightConfig, cfg.is_rgbw = none →
      (cfxIsRgbw cfg = true ↔ cfg.chipset = .SK6812)) ∧
    (∀ (cfg : LightConfig) (b : Bool), cfg.is_rgbw = some b →
      cfxIsRgbw cfg = b) := by
  refine ⟨?_, ⟨rfl, rfl, rfl⟩, ?_, ?_, ⟨rfl, rfl, rfl, rfl⟩, ?_, ?_, ?_⟩
  · intro cfg h; simp [cfxRgbOrder, h]
  · intro cfg o h; simp [cfxRgbOrder, h]
  · intro cfg h; simp [default_rgb_order, h]
  · intro cfg o h; simp [default_rgb_order, h]
  · intro cfg h
    simp only [cfxIsRgbw, h, isRgbwChipset]
    exact decide_eq_true_iff
  · intro cfg b h; simp [cfxIsRgbw, h]

/-- Minimal light configurations used to instantiate `claim_C9`. -/
def c9CfxCfg : LightConfig := { num_leds := 30, chipset := .WS2811 }

/-- Minimal chimera_light configuration used to instantiate `claim_C9`. -/
def c9ChimCfg : ChimeraConfig := { chipset := .WS2813 }

theorem claim_C9_witness :
    cfxRgbOrder c9CfxCfg = .RGB ∧
    (default_rgb_order c9ChimCfg).rgb_order = some .GRB ∧
    (cfxIsRgbw c9CfxCfg = true ↔ c9CfxCfg.chipset = .SK6812) :=
  ⟨claim_C9.1 c9CfxCfg rfl,
   claim_C9.2.2.2.1 c9ChimCfg rfl,
   claim_C9.2.2.2.2.2.2.1 c9CfxCfg rfl⟩

/-! The control-surface entity generation of cfx_effect/cfx_control.py. -/

def PALETTE_OPTIONS : List String :=
  ["Default", "Aurora", "Forest", "Halloween", "Rainbow", "Fire", "Sunset",
   "Ice", "Party", "Pastel", "Ocean", "HeatColors", "Sakura", "Rivendell",
   "Cyberpunk", "OrangeTeal", "Christmas", "RedBlue", "Matrix", "SunnyGold",
   "Solid", "Fairy", "Twilight", "Smart Random"]

def INTRO_OPTIONS : List String :=
  ["None", "Wipe", "Fade", "Center", "Glitter", "Meteor Wipe"]

def EXCLUDE_SPEED : Nat := 1
def EXCLUDE_INTENSITY : Nat := 2
def EXCLUDE_PALETTE : Nat := 3
def EXCLUDE_MIRROR : Nat := 4
def EXCLUDE_INTRO : Nat := 5
def EXCLUDE_TIMER : Nat := 6
def EXCLUDE_AUTOTUNE : Nat := 7
def EXCLUDE_FORCE_WHITE : Nat := 8
def EXCLUDE_DEBUG : Nat := 9
def EXCLUDE_OUTRO : Nat := 10

/-- One entry of `core.CORE.config["light"]`, restricted to the keys the
white-channel scan reads: the optional `id`, the raw `is_rgbw` / `is_wrgb`
flags (absent treated as false by `dict.get`) and the raw `chipset`. -/
structure CoreLightConf where
  id : Option String := none
  is_rgbw : Bool := false
  is_wrgb : Bool := false
  chipset : Option String := none
deriving DecidableEq, Repr

/-- A `cfx_control` configuration block: name, bound light ids, exclusion
list and the (ignored except for `force_white`) `defaults` mapping, modelled
as a partial map from key to boolean value. -/
structure ControlConfig where
  name : String
  lightIds : List String := []
  exclude : List Nat := []
  defaults : String → Option Bool := fun _ => none

/-- The white-channel scan of `cfx_control.to_code` (lines 87-96): true iff
the global config has a `light` section containing an entry whose id is one
of the bound light ids and which is configured `is_rgbw`, `is_wrgb` or with
chipset `"SK6812"`. -/
def has_white_channel (coreLights : Option (List CoreLightConf))
    (lightIds : List String) : Bool :=
  match coreLights with
  | none => false
  | some ls => ls.any fun l =>
      match l.id with
      | none => false
      | some i => lightIds.contains i &&
          (l.is_rgbw || l.is_wrgb || l.chipset == some "SK6812")

/-- A generated control entity: a number with min/max/step/initial value, a
select with its option list and initial option, or a switch with its initial
state, its restore mode (`DEFAULT_ON` iff the flag is true) and whether it
is in the diagnostic entity category. -/
inductive GenEntity
  | num (suffix name icon : String) (minV maxV step init : Rat)
  | sel (suffix name icon : String) (options : List String) (init : String)
  | sw (suffix name icon : String) (init : Bool) (restoreOn : Bool)
      (diagnostic : Bool)
deriving DecidableEq, Repr

/-- The id suffix of a generated entity (the part after `config[CONF_ID]`). -/
def entitySuffix : GenEntity → String
  | .num suffix _ _ _ _ _ _ => suffix
  | .sel suffix _ _ _ _ => suffix
  | .sw suffix _ _ _ _ _ => suffix

/-- The speed number block (`# 1. Speed`). -/
def speedEntity (n : String) : GenEntity :=
  .num "_speed" (n ++ " Speed") "mdi:speedometer" 0 255 1 128

/-- The intensity number block (`# 2. Intensity`). -/
def intensityEntity (n : String) : GenEntity :=
  .num "_intensity" (n ++ " Intensity") "mdi:brightness-6" 0 255 1 128

/-- The palette select block (`# 3. Palette`). -/
def paletteEntity (n : String) : GenEntity :=
  .sel "_palette" (n ++ " Palette") "mdi:palette" PALETTE_OPTIONS "Default"

/-- The mirror switch block (`# 4. Mirror`). -/
def mirrorEntity (n : String) : GenEntity :=
  .sw "_mirror" (n ++ " Mirror") "mdi:swap-horizontal" false false false

/-- The intro select block (`# 5. Intro Effect`). -/
def introEntity (n : String) : GenEntity :=
  .sel "_intro" (n ++ " Intro") "mdi:animation-play" INTRO_OPTIONS "None"

/-- The intro duration number block (`# 6. Intro Duration`). -/
def introDurEntity (n : String) : GenEntity :=
  .num "_intro_dur" (n ++ " Intro Duration") "mdi:timer-outline"
    (1 / 2) 10 (1 / 10) 1

/-- The intro-use-palette switch block (`# 7. Intro Use Palette`). -/
def introPalEntity (n : String) : GenEntity :=
  .sw "_intro_pal" (n ++ " Intro Use Palette") "mdi:palette-swatch-variant"
    false false false

/-- The outro select block (`# 7.5. Outro Effect`). -/
def outroEntity (n : String) : GenEntity :=
  .sel "_outro" (n ++ " Outro") "mdi:animation-play-outline" INTRO_OPTIONS "None"

/-- The outro duration number block (`# 7.6. Outro Duration`). -/
def outroDurEntity (n : String) : GenEntity :=
  .num "_outro_dur" (n ++ " Outro Duration") "mdi:timer-outline"
    (1 / 2) 10 (1 / 10) 1

/-- The timer number block (`# 8. Timer`). -/
def timerEntity (n : String) : GenEntity :=
  .num "_timer" (n ++ " Timer (min)") "mdi:timer-sand" 0 360 1 0

/-- The autotune switch block (`# 10. Autotune`). -/
def autotuneEntity (n : String) : GenEntity :=
  .sw "_autotune" (n ++ " Autotune") "mdi:auto-fix" false false false

/-- The force-white switch block (`# 9. Force White`); its initial state
and restore mode come from `defaults.get("force_white", False)`. -/
def forceWhiteEntity (n : String) (init : Bool) : GenEntity :=
  .sw "_force_white" (n ++ " Force White") "mdi:lightbulb-on-outline"
    init init false

/-- The debug switch block (`# 11. Debug`): diagnostic category, restore
always off. -/
def debugEntity (n : String) : GenEntity :=
  .sw "_debug" (n ++ " Debug") "mdi:bug" false false true

/-- `cfx_control.to_code`: the list of entities registered, in source order,
given the global `light` section and the control block.  Each block is
emitted iff its exclusion id is not in the exclude list; the force-white
switch additionally requires a detected white channel and is the only
entity whose initial state reads the `defaults` mapping
(`defaults.get("force_white", False)`). -/
def control_to_code (coreLights : Option (List CoreLightConf))
    (cfg : ControlConfig) : List GenEntity :=
  let n := cfg.name
  let hasWhite := has_white_channel coreLights cfg.lightIds
  (if EXCLUDE_SPEED ∈ cfg.exclude then [] else [speedEntity n]) ++
  (if EXCLUDE_INTENSITY ∈ cfg.exclude then [] else [intensityEntity n]) ++
  (if EXCLUDE_PALETTE ∈ cfg.exclude then [] else [paletteEntity n]) ++
  (if EXCLUDE_MIRROR ∈ cfg.exclude then [] else [mirrorEntity n]) ++
  (if EXCLUDE_INTRO ∈ cfg.exclude then [] else [introEntity n]) ++
  (if EXCLUDE_INTRO ∈ cfg.exclude then [] else [introDurEntity n]) ++
  (if EXCLUDE_INTRO ∈ cfg.exclude then [] else [introPalEntity n]) ++
  (if EXCLUDE_OUTRO ∈ cfg.exclude then [] else [outroEntity n]) ++
  (if EXCLUDE_OUTRO ∈ cfg.exclude then [] else [outroDurEntity n]) ++
  (if EXCLUDE_TIMER ∈ cfg.exclude then [] else [timerEntity n]) ++
  (if EXCLUDE_AUTOTUNE ∈ cfg.exclude then [] else [autotuneEntity n]) ++
  (if EXCLUDE_FORCE_WHITE ∈ cfg.exclude then [] else
    if hasWhite then
      [forceWhiteEntity n ((cfg.defaults "force_white").getD false)]
    else []) ++
  (if EXCLUDE_DEBUG ∈ cfg.exclude then [] else [debugEntity n])

lemma mem_ite_nil_left {α : Type} {c : Prop} [Decidable c] {l : List α}
    {a : α} : a ∈ (if c then [] else l) ↔ ¬c ∧ a ∈ l := by
  split <;> simp [*]

lemma mem_ite_nil_right {α : Type} {c : Prop} [Decidable c] {l : List α}
    {a : α} : a ∈ (if c then l else []) ↔ c ∧ a ∈ l := by
  split <;> simp [*]

/-- Membership characterization for the generated entity list. -/
lemma mem_control_to_code (coreLights : Option (List CoreLightConf))
    (cfg : ControlConfig) (e : GenEntity) :
    e ∈ control_to_code coreLights cfg ↔
      ((EXCLUDE_SPEED ∉ cfg.exclude ∧ e = speedEntity cfg.name) ∨
       (EXCLUDE_INTENSITY ∉ cfg.exclude ∧ e = intensityEntity cfg.name) ∨
       (EXCLUDE_PALETTE ∉ cfg.exclude ∧ e = paletteEntity cfg.name) ∨
       (EXCLUDE_MIRROR ∉ cfg.exclude ∧ e = mirrorEntity cfg.name) ∨
       (EXCLUDE_INTRO ∉ cfg.exclude ∧ e = introEntity cfg.name) ∨
       (EXCLUDE_INTRO ∉ cfg.exclude ∧ e = introDurEntity cfg.name) ∨
       (EXCLUDE_INTRO ∉ cfg.exclude ∧ e = introPalEntity cfg.name) ∨
       (EXCLUDE_OUTRO ∉ cfg.exclude ∧ e = outroEntity cfg.name) ∨
       (EXCLUDE_OUTRO ∉ cfg.exclude ∧ e = outroDurEntity cfg.name) ∨
       (EXCLUDE_TIMER ∉ cfg.exclude ∧ e = timerEntity cfg.name) ∨
       (EXCLUDE_AUTOTUNE ∉ cfg.exclude ∧ e = autotuneEntity cfg.name) ∨
       (EXCLUDE_FORCE_WHITE ∉ cfg.exclude ∧
         has_white_channel coreLights cfg.lightIds = true ∧
         e = forceWhiteEntity cfg.name ((cfg.defaults "force_white").getD false)) ∨
       (EXCLUDE_DEBUG ∉ cfg.exclude ∧ e = debugEntity cfg.name)) := by
  simp only [control_to_code, List.mem_append, mem_ite_nil_left,
    mem_ite_nil_right, List.mem_singleton, or_assoc, and_assoc]

/-- The white-channel scan succeeds iff some bound light in the global
`light` section has a white channel. -/
lemma has_white_channel_iff (coreLights : Option (List CoreLightConf))
    (lightIds : List String) :
    has_white_channel coreLights lightIds = true ↔
      ∃ ls, coreLights = some ls ∧ ∃ l ∈ ls, ∃ i, l.id = some i ∧
        i ∈ lightIds ∧
        (l.is_rgbw = true ∨ l.is_wrgb = true ∨ l.chipset = some "SK6812") := by
  cases coreLights with
  | none => simp [has_white_channel]
  | some ls =>
    simp only [has_white_channel, List.any_eq_true, Option.some.injEq]
    constructor
    · rintro ⟨l, hl, hp⟩
      refine ⟨ls, rfl, l, hl, ?_⟩
      cases hid : l.id with
      | none => rw [hid] at hp; cases hp
      | some i =>
        rw [hid] at hp
        simp only [Bool.and_eq_true, Bool.or_eq_true, List.elem_iff, beq_iff_eq, or_assoc] at hp
        exact ⟨i, rfl, hp.1, hp.2⟩
    · rintro ⟨ls', hls, l, hl, i, hid, hmem, hwhite⟩
      cases hls
      refine ⟨l, hl, ?_⟩
      rw [hid]
      simp only [Bool.and_eq_true, Bool.or_eq_true, List.elem_iff, beq_iff_eq, or_assoc]
      exact ⟨hmem, hwhite⟩

/-- C5: `cfx_control.to_code` registers a force-white entity iff exclusion
id 8 is absent from the exclude list and at least one bound light in the
global `light` section is configured `is_rgbw`, `is_wrgb` or with chipset
SK6812; for every other configuration no force-white entity appears. -/
theorem claim_C5 (coreLights : Option (List CoreLightConf))
    (cfg : ControlConfig) :
    (∃ e ∈ control_to_code coreLights cfg, entitySuffix e = "_force_white") ↔
      (EXCLUDE_FORCE_WHITE ∉ cfg.exclude ∧
       ∃ ls, coreLights = some ls ∧ ∃ l ∈ ls, ∃ i, l.id = some i ∧
         i ∈ cfg.lightIds ∧
         (l.is_rgbw = true ∨ l.is_wrgb = true ∨ l.chipset = some "SK6812")) := by
  constructor
  · rintro ⟨e, he, hsfx⟩
    rw [mem_control_to_code] at he
    rcases he with ⟨-, rfl⟩ | ⟨h2, rfl⟩ | ⟨-, rfl⟩ | ⟨h4, rfl⟩ | ⟨-, rfl⟩ |
      ⟨h6, rfl⟩ | ⟨-, rfl⟩ | ⟨h8, rfl⟩ | ⟨-, rfl⟩ | ⟨h10, rfl⟩ | ⟨-, rfl⟩ |
      ⟨hex, hw, rfl⟩ | ⟨h13, rfl⟩ <;>
      first
        | (exact ⟨hex, (has_white_channel_iff coreLights cfg.lightIds).mp hw⟩)
        | (simp [entitySuffix, speedEntity, intensityEntity, paletteEntity,
            mirrorEntity, introEntity, introDurEntity, introPalEntity,
            outroEntity, outroDurEntity, timerEntity, autotuneEntity,
            debugEntity] at hsfx)
  · rintro ⟨hex, hwhite⟩
    refine ⟨forceWhiteEntity cfg.name ((cfg.defaults "force_white").getD false),
      ?_, rfl⟩
    rw [mem_control_to_code]
    refine Or.inr (Or.inr (Or.inr (Or.inr (Or.inr (Or.inr (Or.inr (Or.inr
      (Or.inr (Or.inr (Or.inr (Or.inl ?_)))))))))))
    exact ⟨hex, (has_white_channel_iff coreLights cfg.lightIds).mpr hwhite, rfl⟩

/-- The global light section and control block used to instantiate the
control-surface claims. -/
def c5Core : Option (List CoreLightConf) :=
  some [{ id := some "strip1", chipset := some "SK6812" }]

/-- A control block bound to the SK6812 strip of `c5Core`. -/
def c5Cfg : ControlConfig := { name := "FX", lightIds := ["strip1"] }

theorem claim_C5_witness :
    ∃ e ∈ control_to_code c5Core c5Cfg, entitySuffix e = "_force_white" :=
  (claim_C5 c5Core c5Cfg).mpr
    ⟨by decide,
     [{ id := some "strip1", chipset := some "SK6812" }], rfl,
     { id := some "strip1", chipset := some "SK6812" },
     List.mem_singleton.mpr rfl, "strip1", rfl,
     List.mem_singleton.mpr rfl, Or.inr (Or.inr rfl)⟩

/-- C7: whenever their exclusion ids are absent, the generated speed and
intensity numbers have minimum 0, maximum 255, step 1 and initial value
128, and the generated timer number has minimum 0, maximum 360, step 1 and
initial value 0. -/
theorem claim_C7 (coreLights : Option (List CoreLightConf))
    (cfg : ControlConfig) :
    (EXCLUDE_SPEED ∉ cfg.exclude →
      GenEntity.num "_speed" (cfg.name ++ " Speed") "mdi:speedometer"
        0 255 1 128 ∈ control_to_code coreLights cfg) ∧
    (EXCLUDE_INTENSITY ∉ cfg.exclude →
      GenEntity.num "_intensity" (cfg.name ++ " Intensity") "mdi:brightness-6"
        0 255 1 128 ∈ control_to_code coreLights cfg) ∧
    (EXCLUDE_TIMER ∉ cfg.exclude →
      GenEntity.num "_timer" (cfg.name ++ " Timer (min)") "mdi:timer-sand"
        0 360 1 0 ∈ control_to_code coreLights cfg) := by
  refine ⟨fun hs => ?_, fun hi => ?_, fun ht => ?_⟩ <;>
    rw [mem_control_to_code]
  · exact Or.inl ⟨hs, rfl⟩
  · exact Or.inr (Or.inl ⟨hi, rfl⟩)
  · exact Or.inr (Or.inr (Or.inr (Or.inr (Or.inr (Or.inr (Or.inr (Or.inr
      (Or.inr (Or.inl ⟨ht, rfl⟩)))))))))

theorem claim_C7_witness :
    GenEntity.num "_speed" "FX Speed" "mdi:speedometer" 0 255 1 128 ∈
      control_to_code c5Core c5Cfg ∧
    GenEntity.num "_intensity" "FX Intensity" "mdi:brightness-6" 0 255 1 128 ∈
      control_to_code c5Core c5Cfg ∧
    GenEntity.num "_timer" "FX Timer (min)" "mdi:timer-sand" 0 360 1 0 ∈
      control_to_code c5Core c5Cfg :=
  ⟨(claim_C7 c5Core c5Cfg).1 (by decide),
   (claim_C7 c5Core c5Cfg).2.1 (by decide),
   (claim_C7 c5Core c5Cfg).2.2 (by decide)⟩

/-- C8: whenever their exclusion ids are absent, the generated intro and
outro selects both carry exactly the option list
`["None", "Wipe", "Fade", "Center", "Glitter", "Meteor Wipe"]` in that
order, with initial value `"None"`. -/
theorem claim_C8 (coreLights : Option (List CoreLightConf))
    (cfg : ControlConfig) :
    INTRO_OPTIONS = ["None", "Wipe", "Fade", "Center", "Glitter", "Meteor Wipe"] ∧
    (EXCLUDE_INTRO ∉ cfg.exclude →
      GenEntity.sel "_intro" (cfg.name ++ " Intro") "mdi:animation-play"
        ["None", "Wipe", "Fade", "Center", "Glitter", "Meteor Wipe"] "None" ∈
        control_to_code coreLights cfg) ∧
    (EXCLUDE_OUTRO ∉ cfg.exclude →
      GenEntity.sel "_outro" (cfg.name ++ " Outro") "mdi:animation-play-outline"
        ["None", "Wipe", "Fade", "Center", "Glitter", "Meteor Wipe"] "None" ∈
        control_to_code coreLights cfg) := by
  refine ⟨rfl, fun hio => ?_, fun hoo => ?_⟩ <;> rw [mem_control_to_code]
  · exact Or.inr (Or.inr (Or.inr (Or.inr (Or.inl ⟨hio, rfl⟩))))
  · exact Or.inr (Or.inr (Or.inr (Or.inr (Or.inr (Or.inr (Or.inr
      (Or.inl ⟨hoo, rfl⟩)))))))

theorem claim_C8_witness :
    GenEntity.sel "_intro" "FX Intro" "mdi:animation-play"
      ["None", "Wipe", "Fade", "Center", "Glitter", "Meteor Wipe"] "None" ∈
      control_to_code c5Core c5Cfg ∧
    GenEntity.sel "_outro" "FX Outro" "mdi:animation-play-outline"
      ["None", "Wipe", "Fade", "Center", "Glitter", "Meteor Wipe"] "None" ∈
      control_to_code c5Core c5Cfg :=
  ⟨(claim_C8 c5Core c5Cfg).2.1 (by decide),
   (claim_C8 c5Core c5Cfg).2.2 (by decide)⟩

/-- The initial value carried by a generated entity. -/
inductive InitVal
  | q (v : Rat)
  | s (v : String)
  | b (v : Bool)
deriving DecidableEq, Repr

/-- The initial value of a generated entity. -/
def entityInit : GenEntity → InitVal
  | .num _ _ _ _ _ _ i => .q i
  | .sel _ _ _ _ i => .s i
  | .sw _ _ _ i _ _ => .b i

/-- The fixed initial value the source hardcodes for each entity suffix. -/
def fixedInit (sfx : String) : InitVal :=
  if sfx = "_speed" then .q 128
  else if sfx = "_intensity" then .q 128
  else if sfx = "_palette" then .s "Default"
  else if sfx = "_mirror" then .b false
  else if sfx = "_intro" then .s "None"
  else if sfx = "_intro_dur" then .q 1
  else if sfx = "_intro_pal" then .b false
  else if sfx = "_outro" then .s "None"
  else if sfx = "_outro_dur" then .q 1
  else if sfx = "_timer" then .q 0
  else if sfx = "_autotune" then .b false
  else .b false

/-- Replace the force-white switch by a fixed placeholder, leaving every
other entity unchanged. -/
def eraseForceWhite (e : GenEntity) : GenEntity :=
  if entitySuffix e = "_force_white" then
    .sw "_force_white" "" "" false false false
  else e

/-- C10: two control blocks that differ only in their `defaults` mapping
generate identical entity lists except for the force-white switch; every
entity other than the force-white switch has the fixed hardcoded initial
value for its suffix, and the force-white switch (when generated) reads its
initial state from `defaults.get("force_white", False)`. -/
theorem claim_C10 (coreLights : Option (List CoreLightConf))
    (cfg1 cfg2 : ControlConfig) (hn : cfg1.name = cfg2.name)
    (hl : cfg1.lightIds = cfg2.lightIds) (he : cfg1.exclude = cfg2.exclude) :
    ((control_to_code coreLights cfg1).map eraseForceWhite =
      (control_to_code coreLights cfg2).map eraseForceWhite) ∧
    (∀ e ∈ control_to_code coreLights cfg1, entitySuffix e = "_force_white" →
      e = forceWhiteEntity cfg1.name ((cfg1.defaults "force_white").getD false)) ∧
    (∀ e ∈ control_to_code coreLights cfg1, entitySuffix e ≠ "_force_white" →
      entityInit e = fixedInit (entitySuffix e)) := by
  refine ⟨?_, ?_, ?_⟩
  · obtain ⟨n1, l1, x1, d1⟩ := cfg1
    obtain ⟨n2, l2, x2, d2⟩ := cfg2
    simp only at hn hl he
    subst hn; subst hl; subst he
    simp [control_to_code, apply_ite (List.map eraseForceWhite),
      eraseForceWhite, entitySuffix, speedEntity, intensityEntity,
      paletteEntity, mirrorEntity, introEntity, introDurEntity,
      introPalEntity, outroEntity, outroDurEntity, timerEntity,
      autotuneEntity, forceWhiteEntity, debugEntity]
  · intro e he' hsfx
    rw [mem_control_to_code] at he'
    rcases he' with ⟨-, rfl⟩ | ⟨g2, rfl⟩ | ⟨-, rfl⟩ | ⟨g4, rfl⟩ | ⟨-, rfl⟩ |
      ⟨g6, rfl⟩ | ⟨-, rfl⟩ | ⟨g8, rfl⟩ | ⟨-, rfl⟩ | ⟨g10, rfl⟩ | ⟨-, rfl⟩ |
      ⟨-, -, rfl⟩ | ⟨g13, rfl⟩ <;>
      first
        | rfl
        | (simp [entitySuffix, speedEntity, intensityEntity, paletteEntity,
            mirrorEntity, introEntity, introDurEntity, introPalEntity,
            outroEntity, outroDurEntity, timerEntity, autotuneEntity,
            debugEntity] at hsfx)
  · intro e he' hsfx
    rw [mem_control_to_code] at he'
    rcases he' with ⟨-, rfl⟩ | ⟨k2, rfl⟩ | ⟨-, rfl⟩ | ⟨k4, rfl⟩ | ⟨-, rfl⟩ |
      ⟨k6, rfl⟩ | ⟨-, rfl⟩ | ⟨k8, rfl⟩ | ⟨-, rfl⟩ | ⟨k10, rfl⟩ | ⟨-, rfl⟩ |
      ⟨-, -, rfl⟩ | ⟨k13, rfl⟩
    all_goals first
      | rfl
      | exact absurd rfl hsfx

/-- A control block with an empty `defaults` mapping. -/
def c10CfgA : ControlConfig := { name := "FX", lightIds := ["strip1"] }

/-- The same control block with `defaults: force_white: true`. -/
def c10CfgB : ControlConfig :=
  { name := "FX", lightIds := ["strip1"],
    defaults := fun k => if k = "force_white" then some true else none }

theorem claim_C10_witness :
    ((control_to_code c5Core c10CfgB).map eraseForceWhite =
      (control_to_code c5Core c10CfgA).map eraseForceWhite) ∧
    forceWhiteEntity "FX" true =
      forceWhiteEntity c10CfgB.name ((c10CfgB.defaults "force_white").getD false) ∧
    entityInit (speedEntity "FX") = fixedInit (entitySuffix (speedEntity "FX")) :=
  ⟨(claim_C10 c5Core c10CfgB c10CfgA rfl rfl rfl).1,
   (claim_C10 c5Core c10CfgB c10CfgA rfl rfl rfl).2.1
     (forceWhiteEntity "FX" true) (by decide) rfl,
   (claim_C10 c5Core c10CfgB c10CfgA rfl rfl rfl).2.2
     (speedEntity "FX") (by decide) (by decide)⟩

end ChimeraFX
